import Mathlib

/-
Verification development for the medsynapse pipeline backend.

The Python sources under backend/ are shallowly embedded: pure functions
become Lean functions, the LangGraph pipeline becomes explicit state
threading over a GraphState record, machine floats become exact fractions
extended with the IEEE values inf and nan,
and fallible external calls (LLM inference, vector store) become an
environment of Except-valued outcomes.
-/

namespace Medsynapse

/-! ## Python value modelling -/

/-- A Python float: a finite value is modelled exactly as an unnormalized
fraction `num / den` with positive denominator (every finite float the
program handles is a short decimal, so exact fractions are a faithful
model and comparisons stay plain integer arithmetic, which reduces in the
kernel); the non-finite IEEE values `±inf` and `nan` are separate
constructors with their own comparison behaviour. -/
inductive PyFloat where
  | fin (num : Int) (den : Nat)
  | inf (neg : Bool)
  | nan
deriving DecidableEq, Repr

/-- The float with decimal expansion `n / 10 ^ e`. -/
def pfDec (n : Int) (e : Nat) : PyFloat := .fin n (10 ^ e)

instance : OfNat PyFloat n := ⟨.fin (n : Int) 1⟩

/-- Float comparison `a < b`: `nan` compares false against everything,
`-inf` is below every non-`nan` value, `+inf` above; finite values
compare by cross multiplication. -/
def PyFloat.blt (a b : PyFloat) : Bool :=
  match a, b with
  | .nan, _ => false
  | _, .nan => false
  | .inf an, .inf bn => an && !bn
  | .inf an, .fin _ _ => an
  | .fin _ _, .inf bn => !bn
  | .fin an ad, .fin bn bd => decide (an * (bd : Int) < bn * (ad : Int))

/-- Float addition (IEEE: `nan` is absorbing, opposite infinities give
`nan`). -/
def PyFloat.add (a b : PyFloat) : PyFloat :=
  match a, b with
  | .nan, _ => .nan
  | _, .nan => .nan
  | .inf an, .inf bn => if an == bn then .inf an else .nan
  | .inf an, .fin _ _ => .inf an
  | .fin _ _, .inf bn => .inf bn
  | .fin an ad, .fin bn bd => .fin (an * (bd : Int) + bn * (ad : Int)) (ad * bd)

/-- A Python scalar as it can appear in a vital-signs mapping: a string,
an integer, or a float. -/
inductive PyScalar where
  | s (v : String)
  | i (v : Int)
  | f (v : PyFloat)
deriving DecidableEq, Repr

/-- Python truthiness of a scalar: the empty string and numeric zero are
falsy; `inf` and `nan` are truthy. -/
def PyScalar.truthy : PyScalar → Bool
  | .s v => v != ""
  | .i v => v != 0
  | .f (.fin n _) => n != 0
  | .f (.inf _) => true
  | .f .nan => true

/-- Lowercasing by characters (the byte-position implementation of the
standard library does not reduce inside the kernel). -/
def strLower (s : String) : String := ⟨s.toList.map Char.toLower⟩

/-- Python `str.strip()` on a character list. -/
def trimChars (cs : List Char) : List Char :=
  ((cs.dropWhile Char.isWhitespace).reverse.dropWhile Char.isWhitespace).reverse

/-- Python `str.split(sep)` for a one-character separator. -/
def splitChar (sep : Char) : List Char → List (List Char)
  | [] => [[]]
  | c :: cs =>
    if c = sep then [] :: splitChar sep cs
    else
      match splitChar sep cs with
      | h :: t => (c :: h) :: t
      | [] => [[c]]

/-- Python `str.replace("°F", "")`: delete non-overlapping occurrences of
the two-character pattern, left to right. -/
def stripDegF : List Char → List Char
  | '°' :: 'F' :: rest => stripDegF rest
  | c :: rest => c :: stripDegF rest
  | [] => []

/-- The code-point ranges of the Unicode decimal digits (category `Nd`)
that Python's `int()` and `float()` accept, each range running through
the values 0..9; extracted from CPython's `unicodedata`. -/
def pyDigitRanges : List (Nat × Nat) :=
  [(48, 57), (1632, 1641), (1776, 1785), (1984, 1993), (2406, 2415),
   (2534, 2543), (2662, 2671), (2790, 2799), (2918, 2927), (3046, 3055),
   (3174, 3183), (3302, 3311), (3430, 3439), (3558, 3567), (3664, 3673),
   (3792, 3801), (3872, 3881), (4160, 4169), (4240, 4249), (6112, 6121),
   (6160, 6169), (6470, 6479), (6608, 6617), (6784, 6793), (6800, 6809),
   (6992, 7001), (7088, 7097), (7232, 7241), (7248, 7257), (42528, 42537),
   (43216, 43225), (43264, 43273), (43472, 43481), (43504, 43513),
   (43600, 43609), (44016, 44025), (65296, 65305), (66720, 66729),
   (68912, 68921), (69734, 69743), (69872, 69881), (69942, 69951),
   (70096, 70105), (70384, 70393), (70736, 70745), (70864, 70873),
   (71248, 71257), (71360, 71369), (71472, 71481), (71904, 71913),
   (72016, 72025), (72784, 72793), (73040, 73049), (73120, 73129),
   (92768, 92777), (92864, 92873), (93008, 93017), (120782, 120791),
   (120792, 120801), (120802, 120811), (120812, 120821), (120822, 120831),
   (123200, 123209), (123632, 123641), (125264, 125273), (130032, 130041)]

/-- The decimal value of a character under Python's digit rules, `none`
when the character is not a decimal digit. -/
def pyDigitVal (c : Char) : Option Nat :=
  match pyDigitRanges.find? (fun r => decide (r.1 ≤ c.toNat) && decide (c.toNat ≤ r.2)) with
  | some r => some (c.toNat - r.1)
  | none => none

/-- Read a nonempty list of decimal digits (underscores already removed)
as a number; fails on any non-digit. -/
def digitsVal : List Char → Option Nat
  | [] => none
  | cs =>
    if cs.all (fun c => (pyDigitVal c).isSome) then
      some (cs.foldl (fun acc c => acc * 10 + (pyDigitVal c).getD 0) 0)
    else none

/-- No two adjacent underscores in the list. -/
def noDoubleUnderscore : List Char → Bool
  | '_' :: '_' :: _ => false
  | _ :: rest => noDoubleUnderscore rest
  | [] => true

/-- PEP 515 grouping for one digit run: nonempty, underscores only
between digits (no leading or trailing underscore, none doubled); on
success returns the digits with the underscores removed. -/
def runToDigits (cs : List Char) : Option (List Char) :=
  match cs with
  | [] => none
  | c :: _ =>
    if c == '_' then none
    else if cs.getLast? == some '_' then none
    else if noDoubleUnderscore cs then some (cs.filter (fun x => x != '_'))
    else none

/-- Value of one complete digit run that may use underscore grouping. -/
def runVal (cs : List Char) : Option Nat :=
  if cs.all (fun x => x == '_' || (pyDigitVal x).isSome) then
    (runToDigits cs).bind digitsVal
  else none

/-- Python `int(...)` on the characters of a string: strip whitespace,
optional sign, then one underscore-grouped run of decimal digits. -/
def parseIntChars (cs : List Char) : Option Int :=
  match trimChars cs with
  | [] => none
  | c :: rest =>
    if c = '+' then (runVal rest).map Int.ofNat
    else if c = '-' then (runVal rest).map (fun n => -(n : Int))
    else (runVal (c :: rest)).map Int.ofNat

/-- Python `int(str)`. -/
def parseIntStr (v : String) : Option Int := parseIntChars v.toList

/-- A possibly-empty mantissa part: `none` marks an invalid run,
`some (v, k)` a valid run of value `v` holding `k` digits (for an empty
part, `(0, 0)`). -/
def partVal : List Char → Option (Nat × Nat)
  | [] => some (0, 0)
  | cs =>
    if cs.all (fun x => x == '_' || (pyDigitVal x).isSome) then
      match runToDigits cs with
      | some ds => (digitsVal ds).map (fun v => (v, ds.length))
      | none => none
    else none

/-- The decimal part of a Python float token (after the optional sign,
before any exponent handling): digits with an optional dot, underscore
grouping per part, at least one digit overall; yields the numerator and
the number of fractional digits. -/
def mantissaVal (cs : List Char) : Option (Nat × Nat) :=
  let ip := cs.takeWhile (fun c => c != '.')
  match cs.drop ip.length with
  | [] => (partVal ip).bind (fun p => if p.2 = 0 then none else some (p.1, 0))
  | '.' :: fp =>
    (partVal ip).bind (fun p =>
      (partVal fp).bind (fun q =>
        if p.2 = 0 && q.2 = 0 then none
        else some (p.1 * 10 ^ q.2 + q.1, q.2)))
  | _ => none

/-- The numeric (non-inf, non-nan) float grammar with an optional
`e`/`E` exponent whose digits may also be underscore-grouped. -/
def parseDecimalFloat (cs : List Char) (neg : Bool) : Option PyFloat :=
  let sign : Int := if neg then -1 else 1
  let mant := cs.takeWhile (fun c => c != 'e' && c != 'E')
  match cs.drop mant.length with
  | [] =>
    (mantissaVal mant).map (fun m => .fin (sign * (m.1 : Int)) (10 ^ m.2))
  | _ :: erest =>
    (mantissaVal mant).bind (fun m =>
      let expVal : Option Int :=
        match erest with
        | '+' :: ds => (runVal ds).map Int.ofNat
        | '-' :: ds => (runVal ds).map (fun n => -(n : Int))
        | ds => (runVal ds).map Int.ofNat
      expVal.map (fun e =>
        if 0 ≤ e then .fin (sign * (m.1 : Int) * 10 ^ e.toNat) (10 ^ m.2)
        else .fin (sign * (m.1 : Int)) (10 ^ m.2 * 10 ^ (-e).toNat)))

/-- Python `float(...)` after the sign: the case-insensitive spellings
`inf`, `infinity` and `nan`, else the decimal grammar. -/
def parseUnsignedFloat (cs : List Char) (neg : Bool) : Option PyFloat :=
  let low := cs.map Char.toLower
  if low == "inf".toList || low == "infinity".toList then some (.inf neg)
  else if low == "nan".toList then some .nan
  else parseDecimalFloat cs neg

/-- Python `float(...)` on an already-stripped character list: optional
sign, then `inf`/`infinity`/`nan` or decimal digits with optional
fraction and exponent (PEP 515 underscores allowed in every digit run,
Unicode decimal digits accepted).  Values are kept exact: the
double-rounding and the overflow of astronomically large exponents to
`inf` are outside the modelled value space. -/
def parseFloatChars (l : List Char) : Option PyFloat :=
  match l with
  | [] => none
  | c :: rest =>
    if c = '+' then parseUnsignedFloat rest false
    else if c = '-' then parseUnsignedFloat rest true
    else parseUnsignedFloat (c :: rest) false

/-- Python `int(x)` on a scalar: parse strings, keep integers, truncate
finite floats toward zero.  On `inf` Python raises `OverflowError` — a
case the vital-sign branch does not catch, surfaced separately by
`vitalsRaises` — and on `nan` it raises `ValueError`, which that branch
does catch; both are therefore `none` here. -/
def pyIntOfScalar : PyScalar → Option Int
  | .s v => parseIntStr v
  | .i v => some v
  | .f (.fin n d) => some (Int.tdiv n (d : Int))
  | .f (.inf _) => none
  | .f .nan => none

/-- Python `float(str(x).replace("°F", "").replace("F", "").strip())`,
as the temperature branch of the classifier performs it.  For numeric
scalars `str` round-trips and the replacements are no-ops (`str(inf)` is
`"inf"`, which re-parses to `inf`). -/
def pyTempFloat : PyScalar → Option PyFloat
  | .s v =>
    parseFloatChars (trimChars ((stripDegF v.toList).filter (fun c => c != 'F')))
  | .i v => some (.fin v 1)
  | .f q => some q

/-- Boolean prefix test on character lists. -/
def prefixOfB : List Char → List Char → Bool
  | [], _ => true
  | _ :: _, [] => false
  | a :: as, b :: bs => a == b && prefixOfB as bs

/-- Boolean contiguous-sublist test on character lists. -/
def infixOfB (n : List Char) : List Char → Bool
  | [] => n.isEmpty
  | c :: cs => prefixOfB n (c :: cs) || infixOfB n cs

/-- Python `needle in hay` substring containment. -/
def containsSub (hay needle : String) : Bool :=
  infixOfB needle.toList hay.toList

/-- A vital-signs mapping, modelled as an association list (first match
wins on lookup, mirroring unique dict keys). -/
abbrev Vitals := List (String × PyScalar)

/-- `dict.get(key)`: the value at the first matching key, if any. -/
def lookupV (vs : Vitals) (k : String) : Option PyScalar :=
  (vs.find? (fun p => p.1 == k)).map Prod.snd

/-- Python `key in dict`. -/
def hasKey (vs : Vitals) (k : String) : Bool :=
  (vs.find? (fun p => p.1 == k)).isSome

/-- Value of the Python expression `a or b` where `a` is an optional
scalar: `a`'s value when present and truthy, otherwise `b`. -/
def truthyOrElse (a b : Option PyScalar) : Option PyScalar :=
  match a with
  | some v => if v.truthy then some v else b
  | none => b

/-! ## Data model

Modelled from the spec: `models/schemas.py` (the pydantic entity schemas
and the `GraphState` aggregate) is not part of the provided source tree;
only its consumers are.  The record shapes below follow §3 of the design
document, with floats as `PyFloat` values and optional-until-produced
fields as `Option`. -/

/-- Modelled from the spec: the `PatientIntakeInput` schema of
`models/schemas.py` (absent from the source tree). -/
structure PatientIntakeInput where
  patient_id : String
  raw_input : String
  session_id : Option String
deriving DecidableEq, Repr

/-- Modelled from the spec: the `StructuredPatientData` schema of
`models/schemas.py` (absent from the source tree). -/
structure StructuredPatientData where
  patient_id : String
  chief_complaint : String
  symptoms : List String
  duration : Option String
  severity : Option String
  medical_history : List String
  medications : List String
  allergies : List String
  vital_signs : Option Vitals
deriving DecidableEq, Repr

/-- Modelled from the spec: a `PatientHistoryEntry` as returned by the
memory collaborator (`models/schemas.py` is absent from the source tree). -/
structure PatientHistoryEntry where
  timestamp : String
  chief_complaint : String
  symptoms : List String
  assessment : String
deriving DecidableEq, Repr

/-- Modelled from the spec: the `ClinicalSummary` schema of
`models/schemas.py` (absent from the source tree). -/
structure ClinicalSummary where
  concise_summary : String
  key_findings : List String
  risk_factors : List String
  suggested_focus_areas : List String
deriving DecidableEq, Repr

/-- Modelled from the spec: one similar-case hit of the vector store
(`models/schemas.py` is absent from the source tree). -/
structure SimilarCase where
  score : PyFloat
  patient_id : String
  chief_complaint : String
  symptoms : List String
  assessment : String
deriving DecidableEq, Repr

/-- Modelled from the spec: the `KnowledgeContext` schema of
`models/schemas.py` (absent from the source tree). -/
structure KnowledgeContext where
  relevant_conditions : List String
  clinical_guidelines : List String
  similar_cases : List SimilarCase
  confidence_score : PyFloat
deriving DecidableEq, Repr

/-- Modelled from the spec: the `SOAPReport` schema of
`models/schemas.py` (absent from the source tree); `generated_at` is an
opaque timestamp string. -/
structure SOAPReport where
  patient_id : String
  subjective : String
  objective : String
  assessment : String
  plan : String
  confidence_level : String
  flags : List String
  generated_at : String
deriving DecidableEq, Repr

/-- Modelled from the spec: the `GraphState` aggregate of
`models/schemas.py` (absent from the source tree).  Agents return partial
dict updates that LangGraph merges key-by-key (last write wins, no list
reducers: the agents themselves compute `state.routing_path + [...]`), so
each agent is embedded as a full-state function that copies the fields it
does not mention. -/
structure GraphState where
  patient_intake : Option PatientIntakeInput
  structured_data : Option StructuredPatientData
  patient_history : Option (List PatientHistoryEntry)
  clinical_summary : Option ClinicalSummary
  knowledge_context : Option KnowledgeContext
  soap_report : Option SOAPReport
  case_priority : String
  requires_enhanced_analysis : Bool
  routing_path : List String
  errors : List String
  processing_time_ms : PyFloat
  current_step : String
deriving DecidableEq, Repr

/-! ## backend/utils/routing.py -/

/-- `EMERGENCY_KEYWORDS` of backend/utils/routing.py. -/
def EMERGENCY_KEYWORDS : List String :=
  ["chest pain", "difficulty breathing", "severe bleeding",
   "loss of consciousness", "severe head injury", "stroke", "heart attack",
   "anaphylaxis", "severe allergic reaction", "difficulty swallowing",
   "sudden vision loss", "severe abdominal pain"]

/-- `URGENT_KEYWORDS` of backend/utils/routing.py. -/
def URGENT_KEYWORDS : List String :=
  ["moderate pain", "persistent vomiting", "high fever", "confusion",
   "severe headache", "shortness of breath", "rapid heartbeat"]

/-- `any(keyword in chief_complaint or any(keyword in symptom ...))` over a
keyword list, as the two keyword loops of `determine_case_priority`. -/
def keywordHit (kws : List String) (cc : String) (syms : List String) : Bool :=
  kws.any (fun kw => containsSub cc kw || syms.any (fun s => containsSub s kw))

/-- The Python value of `vitals.get("bp") or vitals.get("blood_pressure", "")`
(backend/utils/routing.py line 79); the second `get` has default `""`, so
the expression is always a scalar. -/
def bpValue (vs : Vitals) : PyScalar :=
  (truthyOrElse (lookupV vs "bp")
    (some ((lookupV vs "blood_pressure").getD (.s "")))).getD (.s "")

/-- Parse a blood-pressure scalar as the source does (lines 80-82): it
must be a string containing `/` whose `/`-split parts are exactly two
Python integers; any other shape fails. -/
def bpParse : PyScalar → Option (Int × Int)
  | .s str =>
    if containsSub str "/" then
      match (splitChar '/' str.toList).map parseIntChars with
      | [some sys, some dia] => some (sys, dia)
      | _ => none
    else none
  | _ => none

/-- The blood-pressure branch of `determine_case_priority`
(backend/utils/routing.py lines 77-86): guarded by key presence, value
taken as `vitals.get("bp") or vitals.get("blood_pressure", "")`, parsed as
`systolic/diastolic` integers, thresholds checked; any parse failure is
swallowed. -/
def bpCheck (vs : Vitals) : Bool :=
  if hasKey vs "bp" || hasKey vs "blood_pressure" then
    match bpParse (bpValue vs) with
    | some (sys, dia) => decide (sys > 180 ∨ sys < 90 ∨ dia > 120 ∨ dia < 60)
    | none => false
  else false

/-- The Python value of `vitals.get("hr") or vitals.get("heart_rate")`
(backend/utils/routing.py line 89), `none` when the result is `None`. -/
def hrRaw (vs : Vitals) : Option PyScalar :=
  truthyOrElse (lookupV vs "hr") (lookupV vs "heart_rate")

/-- The heart-rate branch of `determine_case_priority`
(backend/utils/routing.py lines 89-96): the looked-up value is skipped
when falsy (`if hr:`), converted with `int`, thresholds checked; parse
failure swallowed. -/
def hrCheck (vs : Vitals) : Bool :=
  match hrRaw vs with
  | some v =>
    if v.truthy then
      match pyIntOfScalar v with
      | some n => decide (n > 120 ∨ n < 50)
      | none => false
    else false
  | none => false

/-- The Python value of `vitals.get("temp") or vitals.get("temperature")`
(backend/utils/routing.py line 99). -/
def tempRaw (vs : Vitals) : Option PyScalar :=
  truthyOrElse (lookupV vs "temp") (lookupV vs "temperature")

/-- The temperature branch of `determine_case_priority`
(backend/utils/routing.py lines 99-106): the looked-up value is skipped
when falsy (`if temp:`), unit suffix stripped and converted with `float`,
thresholds checked; parse failure swallowed. -/
def tempCheck (vs : Vitals) : Bool :=
  match tempRaw vs with
  | some v =>
    if v.truthy then
      match pyTempFloat v with
      | some q => PyFloat.blt 103 q || PyFloat.blt q 95
      | none => false
    else false
  | none => false

/-- The whole vital-signs section of `determine_case_priority`
(backend/utils/routing.py lines 74-106) as a flag: it runs only when
`vital_signs` is present and non-empty (Python truthiness of the dict) and
returns `urgent` from the first breached branch. -/
def vitalsUrgent : Option Vitals → Bool
  | some vs =>
    if vs.isEmpty then false
    else if bpCheck vs then true
    else if hrCheck vs then true
    else if tempCheck vs then true
    else false
  | none => false

/-- `determine_case_priority` of backend/utils/routing.py: emergency
keywords, then explicit `severe` severity, then urgent keywords, then the
vital-sign section, defaulting to `routine`.  This is the classifier on
its non-raising domain; `determine_case_priority_exc` is the full
embedding, which also surfaces the one uncaught exception. -/
def determine_case_priority (d : StructuredPatientData) : String :=
  let cc := strLower d.chief_complaint
  let syms := d.symptoms.map strLower
  let sev := strLower (d.severity.getD "")
  if keywordHit EMERGENCY_KEYWORDS cc syms then "emergency"
  else if sev == "severe" then "urgent"
  else if keywordHit URGENT_KEYWORDS cc syms then "urgent"
  else if vitalsUrgent d.vital_signs then "urgent"
  else "routine"

/-- Whether the vital-sign section raises: after a non-breaching
blood-pressure step, the heart-rate lookup yields a float infinity —
truthy, so `int(hr)` runs and raises `OverflowError`, which the branch's
`except (ValueError, TypeError)` (routing.py line 95) does not catch.
(A `nan` heart rate raises `ValueError` from `int()`, which is caught.) -/
def vitalsRaises : Option Vitals → Bool
  | none => false
  | some vs =>
    if vs.isEmpty then false
    else if bpCheck vs then false
    else
      match hrRaw vs with
      | some (PyScalar.f (PyFloat.inf _)) => true
      | _ => false

/-- The one exception `determine_case_priority` can leak, named as its
Python class and message. -/
def overflowMsg : String := "OverflowError: cannot convert float infinity to integer"

/-- The full embedding of `determine_case_priority`, `Except`-valued: an
`.error` models the uncaught `OverflowError` escaping the function (its
callers sit inside agent-level `try` blocks, so in the pipeline the
escape becomes a stage failure); every other execution path terminates
with a priority label. -/
def determine_case_priority_exc (d : StructuredPatientData) : Except String String :=
  let cc := strLower d.chief_complaint
  let syms := d.symptoms.map strLower
  let sev := strLower (d.severity.getD "")
  if keywordHit EMERGENCY_KEYWORDS cc syms then .ok "emergency"
  else if sev == "severe" then .ok "urgent"
  else if keywordHit URGENT_KEYWORDS cc syms then .ok "urgent"
  else if vitalsRaises d.vital_signs then .error overflowMsg
  else if vitalsUrgent d.vital_signs then .ok "urgent"
  else .ok "routine"

/-- `should_use_enhanced_analysis` of backend/utils/routing.py: false
unless both knowledge context and clinical summary are present, then true
when confidence is below 0.5, more than three risk factors are listed, or
no similar cases were found while confidence is below 0.7. -/
def should_use_enhanced_analysis (state : GraphState) : Bool :=
  match state.knowledge_context, state.clinical_summary with
  | some knowledge, some summary =>
    if PyFloat.blt knowledge.confidence_score (pfDec 5 1) then true
    else if summary.risk_factors.length > 3 then true
    else if knowledge.similar_cases.isEmpty && PyFloat.blt knowledge.confidence_score (pfDec 7 1) then true
    else false
  | _, _ => false

/-- `route_after_knowledge` of backend/utils/routing.py: evaluates the
enhanced-analysis policy (the result is observable only as a flag set by
the knowledge agent) and always names `report` as the next node. -/
def route_after_knowledge (state : GraphState) : String :=
  let _ := should_use_enhanced_analysis state
  "report"

/-! ## backend/utils/cache.py

The `TTLCache` keeps an `OrderedDict` from keys to `(value, expiry)`
entries; the embedding keeps the same ordered structure as a list with the
oldest entry at the head and the most recently touched at the tail.
`time.time()` becomes an explicit `now` argument on each operation. -/

/-- One stored cache entry: the `{"value": ..., "expiry": ...}` dict. -/
structure CacheEntry (α : Type) where
  value : α
  expiry : PyFloat
deriving DecidableEq, Repr

/-- `TTLCache` state: configuration plus the ordered entry list. -/
structure TTLCache (α : Type) where
  max_size : Nat
  default_ttl : PyFloat
  entries : List (String × CacheEntry α)
deriving DecidableEq, Repr

/-- `OrderedDict` lookup by key. -/
def findEntry (es : List (String × CacheEntry α)) (k : String) : Option (CacheEntry α) :=
  (es.find? (fun p => p.1 == k)).map Prod.snd

/-- Remove the entry stored under `k` (Python `del d[key]`). -/
def eraseEntry (es : List (String × CacheEntry α)) (k : String) : List (String × CacheEntry α) :=
  es.filter (fun p => p.1 != k)

/-- `TTLCache.get`: a miss returns `none`; an expired hit deletes the
entry and returns `none`; a live hit moves the key to the tail (most
recently used) and returns the stored value.  Returns the value together
with the updated cache. -/
def TTLCache.get (c : TTLCache α) (k : String) (now : PyFloat) :
    Option α × TTLCache α :=
  match findEntry c.entries k with
  | none => (none, c)
  | some e =>
    if PyFloat.blt e.expiry now then
      (none, { c with entries := eraseEntry c.entries k })
    else
      (some e.value, { c with entries := eraseEntry c.entries k ++ [(k, e)] })

/-- `TTLCache.set`: at capacity a new key first evicts the head of the
ordered structure (`popitem(last=False)`); then the entry is written and
moved to the tail.  (With `max_size = 0` and an empty cache the source
would raise from `popitem` on an empty dict; that regime is outside every
configuration the program creates.) -/
def TTLCache.set (c : TTLCache α) (k : String) (v : α) (ttl : Option PyFloat)
    (now : PyFloat) : TTLCache α :=
  let expiry := now.add (ttl.getD c.default_ttl)
  let base :=
    if c.entries.length ≥ c.max_size && !(findEntry c.entries k).isSome then
      c.entries.tail
    else c.entries
  { c with entries := eraseEntry base k ++ [(k, ⟨v, expiry⟩)] }

/-- `TTLCache.delete`. -/
def TTLCache.delete (c : TTLCache α) (k : String) : TTLCache α :=
  { c with entries := eraseEntry c.entries k }

/-- `TTLCache.clear`. -/
def TTLCache.clear (c : TTLCache α) : TTLCache α :=
  { c with entries := [] }

/-- `TTLCache.size`. -/
def TTLCache.size (c : TTLCache α) : Nat := c.entries.length

/-- `TTLCache.cleanup_expired`: drop every entry already past expiry. -/
def TTLCache.cleanup_expired (c : TTLCache α) (now : PyFloat) : TTLCache α :=
  { c with entries := c.entries.filter (fun p => !(PyFloat.blt p.2.expiry now)) }

/-- Outcome of one call through the `cached` decorator's wrapper: the
value returned to the caller, the cache afterwards, and whether the
wrapped function was invoked. -/
structure CachedOutcome (β : Type) where
  result : Option β
  cache : TTLCache (Option β)
  invoked : Bool
deriving Repr

/-- The wrapper produced by the `cached` decorator, for a wrapped function
whose Python results may be `None` (so results live in `Option β`, with
`none` standing for Python `None`).  The wrapper asks the cache first and
recomputes unless `cache.get` handed back a non-`None` Python value: a
miss, an expired entry and a stored `None` are indistinguishable at the
`is not None` test, because `get` returns the Python object `None` in all
three cases. -/
def cachedCall (cache : TTLCache (Option β)) (ttl : Option PyFloat)
    (keyOf : Arg → String) (f : Arg → Option β) (a : Arg) (now : PyFloat) :
    CachedOutcome β :=
  let key := keyOf a
  let r := cache.get key now
  match r.1 with
  | some (some v) => ⟨some v, r.2, false⟩
  | _ =>
    let v := f a
    ⟨v, r.2.set key v ttl now, true⟩

/-! ## backend/utils/retry.py

`retry_with_exponential_backoff` loops `for attempt in range(max_retries + 1)`,
re-raising the last exception once the final attempt fails and propagating
a non-retryable exception immediately.  Delays (and jitter) only pause the
loop, so they are not part of the result model.  The attempt-indexed
function `f` stands for successive invocations of the wrapped callable;
errors of type `E` with `retryable e = false` model exceptions outside the
decorator's `exceptions` tuple. -/

/-- The retry loop from attempt number `attempt` with `remaining` retries
left, returning the outcome together with the total number of invocations
performed. -/
def retryLoop (retryable : E → Bool) (f : Nat → Except E A) :
    Nat → Nat → Except E A × Nat
  | attempt, remaining =>
    match f attempt with
    | .ok a => (.ok a, attempt + 1)
    | .error e =>
      if retryable e then
        match remaining with
        | 0 => (.error e, attempt + 1)
        | r + 1 => retryLoop retryable f (attempt + 1) r
      else (.error e, attempt + 1)

/-- `retry_with_exponential_backoff(max_retries)` applied to `f`: the
final outcome and the number of times `f` ran. -/
def retry_with_exponential_backoff (retryable : E → Bool) (max_retries : Nat)
    (f : Nat → Except E A) : Except E A × Nat :=
  retryLoop retryable f 0 max_retries

/-! ## Agents and the pipeline (backend/agents/, backend/graph.py)

Each agent returns a partial dict that LangGraph merges into the state
key-by-key (last write wins); the embedding therefore turns each agent
into a full-state function that updates exactly the keys its return dict
mentions.  Calls to the external inference (Groq) and memory (Qdrant)
collaborators are abstracted into an environment of `Except` outcomes:
`.error e` models the call raising an exception with message `e`. -/

/-- The fields the knowledge agent's LLM chain returns (its prompt's JSON
shape before similar cases are injected). -/
structure KnowledgeLLMResult where
  relevant_conditions : List String
  clinical_guidelines : List String
  confidence_score : PyFloat
deriving DecidableEq, Repr

/-- The fields the report agent's LLM chain returns. -/
structure SOAPDraft where
  subjective : String
  objective : String
  assessment : String
  plan : String
  confidence_level : String
  flags : List String
deriving DecidableEq, Repr

/-- Outcomes of all external collaborator calls a single run can make. -/
structure Env where
  extractResult : Except String StructuredPatientData
  historyResult : Except String (List PatientHistoryEntry)
  summaryResult : Except String ClinicalSummary
  knowledgeResult : Except String KnowledgeLLMResult
  searchResult : Except String (List SimilarCase)
  reportResult : Except String SOAPDraft
  storeResult : Except String String

/-- `intake_agent` of backend/agents/intake.py: on success stores the
structured data, computes the case priority, appends `intake` to the
routing path and hands off to `summary`; on a missing intake or an
extraction error it overwrites `errors` with the single message and sets
`current_step = "intake_failed"`.  The classifier call sits inside the
agent's `try`, so on the one structured-data family where
`determine_case_priority` raises (a float-infinity heart rate, see
`determine_case_priority_exc` and claim C9) the source would take the
error branch; the pipeline model uses the total classifier, i.e. covers
the non-raising structured data. -/
def intake_agent (env : Env) (s : GraphState) : GraphState :=
  match s.patient_intake with
  | none =>
    { s with errors := ["No patient intake data provided"],
             current_step := "intake_failed" }
  | some intake =>
    match env.extractResult with
    | .ok fields =>
      let sd := { fields with patient_id := intake.patient_id }
      { s with structured_data := some sd,
               current_step := "summary",
               case_priority := determine_case_priority sd,
               routing_path := s.routing_path ++ ["intake"] }
    | .error e =>
      { s with errors := ["Intake agent error: " ++ e],
               current_step := "intake_failed" }

/-- `memory_agent` of backend/agents/memory.py: best-effort history
retrieval.  Without a patient id it skips the lookup; on failure it
substitutes an empty history and appends the error; in every branch it
appends `memory` to the routing path and hands off to `summary`. -/
def memory_agent (env : Env) (s : GraphState) : GraphState :=
  match s.patient_intake with
  | none =>
    { s with current_step := "summary",
             routing_path := s.routing_path ++ ["memory"] }
  | some intake =>
    if intake.patient_id == "" then
      { s with current_step := "summary",
               routing_path := s.routing_path ++ ["memory"] }
    else
      match env.historyResult with
      | .ok h =>
        { s with patient_history := some h,
                 current_step := "summary",
                 routing_path := s.routing_path ++ ["memory"] }
      | .error e =>
        { s with patient_history := some [],
                 current_step := "summary",
                 routing_path := s.routing_path ++ ["memory"],
                 errors := s.errors ++ ["Memory agent error: " ++ e] }

/-- `summary_agent` of backend/agents/summary.py: requires structured
data (otherwise `summary_failed`, overwriting `errors` with the single
message); on success stores the clinical summary and hands off to
`knowledge` without touching the routing path; on an inference error it
appends the message and sets `summary_failed`. -/
def summary_agent (env : Env) (s : GraphState) : GraphState :=
  match s.structured_data with
  | none =>
    { s with errors := ["No structured data available for summarization"],
             current_step := "summary_failed" }
  | some _ =>
    match env.summaryResult with
    | .ok cs =>
      { s with clinical_summary := some cs, current_step := "knowledge" }
    | .error e =>
      { s with errors := s.errors ++ ["Summary agent error: " ++ e],
               current_step := "summary_failed" }

/-- `knowledge_agent` of backend/agents/knowledge.py: requires the
clinical summary; the LLM call is stage-fatal on failure while the vector
search is absorbed (empty `similar_cases`), as is the attribute access on
a missing `structured_data` inside the same inner `try`; on success it
stores the knowledge context, appends `knowledge` to the routing path,
evaluates the enhanced-analysis policy on the prospective state and hands
off to `report`. -/
def knowledge_agent (env : Env) (s : GraphState) : GraphState :=
  match s.clinical_summary with
  | none =>
    { s with errors := s.errors ++ ["No clinical summary available"],
             current_step := "knowledge_failed" }
  | some _ =>
    match env.knowledgeResult with
    | .error e =>
      { s with errors := s.errors ++ ["Knowledge agent error: " ++ e],
               current_step := "knowledge_failed" }
    | .ok kr =>
      let similar :=
        match s.structured_data with
        | none => []
        | some _ =>
          match env.searchResult with
          | .ok cs => cs
          | .error _ => []
      let kc : KnowledgeContext :=
        { relevant_conditions := kr.relevant_conditions,
          clinical_guidelines := kr.clinical_guidelines,
          similar_cases := similar,
          confidence_score := kr.confidence_score }
      let requires := should_use_enhanced_analysis
        { s with knowledge_context := some kc }
      { s with knowledge_context := some kc,
               current_step := "report",
               routing_path := s.routing_path ++ ["knowledge"],
               requires_enhanced_analysis := requires }

/-- `report_agent` of backend/agents/report.py: requires structured data,
clinical summary and knowledge context (each missing prerequisite appends
its message and sets `report_failed`); on success stores the SOAP report,
appends `report` to the routing path and sets `completed`; on an
inference error it appends the message and sets `report_failed`. -/
def report_agent (env : Env) (s : GraphState) : GraphState :=
  match s.structured_data with
  | none =>
    { s with errors := s.errors ++ ["Missing structured patient data"],
             current_step := "report_failed" }
  | some sd =>
    match s.clinical_summary with
    | none =>
      { s with errors := s.errors ++ ["Missing clinical summary"],
               current_step := "report_failed" }
    | some _ =>
      match s.knowledge_context with
      | none =>
        { s with errors := s.errors ++ ["Missing knowledge context"],
                 current_step := "report_failed" }
      | some _ =>
        match env.reportResult with
        | .ok dr =>
          let soap : SOAPReport :=
            { patient_id := sd.patient_id,
              subjective := dr.subjective,
              objective := dr.objective,
              assessment := dr.assessment,
              plan := dr.plan,
              confidence_level := dr.confidence_level,
              flags := dr.flags,
              generated_at := "" }
          { s with soap_report := some soap,
                   current_step := "completed",
                   routing_path := s.routing_path ++ ["report"] }
        | .error e =>
          { s with errors := s.errors ++ ["Report agent error: " ++ e],
                   current_step := "report_failed" }

/-- `storage_agent` of backend/agents/storage.py: with incomplete case
data it only sets `current_step = "completed"`; on a successful store it
also appends `storage` to the routing path; on a storage failure it
appends the warning to `errors` and sets `completed` without touching the
routing path. -/
def storage_agent (env : Env) (s : GraphState) : GraphState :=
  match s.structured_data, s.soap_report with
  | some _, some _ =>
    match env.storeResult with
    | .ok _ =>
      { s with current_step := "completed",
               routing_path := s.routing_path ++ ["storage"] }
    | .error e =>
      { s with current_step := "completed",
               errors := s.errors ++ ["Storage agent warning: " ++ e] }
  | _, _ => { s with current_step := "completed" }

/-- The compiled graph of `create_medical_graph` (backend/graph.py):
fixed edges `intake → memory → summary → knowledge`, a conditional edge
after `knowledge` whose only mapping is `report`, then
`report → storage → END`.  No edge short-circuits on failure: every node
runs on every invocation. -/
def run_medical_graph (env : Env) (s : GraphState) : GraphState :=
  let s1 := intake_agent env s
  let s2 := memory_agent env s1
  let s3 := summary_agent env s2
  let s4 := knowledge_agent env s3
  let s5 := if route_after_knowledge s4 == "report" then report_agent env s4 else s4
  storage_agent env s5

/-- The initial state `process_patient_intake` builds: a fresh
`GraphState` holding only the patient intake, with the spec's defaults for
the remaining fields. -/
def initial_state (patient_id raw_input : String) (session_id : Option String) :
    GraphState :=
  { patient_intake := some ⟨patient_id, raw_input, session_id⟩,
    structured_data := none,
    patient_history := none,
    clinical_summary := none,
    knowledge_context := none,
    soap_report := none,
    case_priority := "routine",
    requires_enhanced_analysis := false,
    routing_path := [],
    errors := [],
    processing_time_ms := 0,
    current_step := "intake" }

/-- `process_patient_intake` of backend/graph.py, up to the wall-clock
`processing_time_ms` stamp: build the initial state and run the graph. -/
def process_patient_intake (env : Env) (patient_id raw_input : String)
    (session_id : Option String) : GraphState :=
  run_medical_graph env (initial_state patient_id raw_input session_id)

/-! ## Specification-side classifier definitions

`determine_case_priority_claim` renders the specification's description of
the classifier word for word, to be compared with the embedding of the
source; `determine_case_priority_amended` is the same description with the
vitals handling corrected to the source's Python-truthiness semantics. -/

/-- The claim's blood-pressure rule: the vital under the abbreviated or
full key, when present and parseable as `systolic/diastolic` integers,
breaches a threshold. -/
def bpBreachClaim (vs : Vitals) : Bool :=
  match ((lookupV vs "bp").orElse (fun _ => lookupV vs "blood_pressure")) with
  | some v =>
    match bpParse v with
    | some (sys, dia) => decide (sys > 180 ∨ sys < 90 ∨ dia > 120 ∨ dia < 60)
    | none => false
  | none => false

/-- The claim's heart-rate rule: the vital under the abbreviated or full
key, when present and parseable as an integer, breaches a threshold. -/
def hrBreachClaim (vs : Vitals) : Bool :=
  match ((lookupV vs "hr").orElse (fun _ => lookupV vs "heart_rate")) with
  | some v =>
    match pyIntOfScalar v with
    | some n => decide (n > 120 ∨ n < 50)
    | none => false
  | none => false

/-- The claim's temperature rule: the vital under the abbreviated or full
key, when present and parseable as a float (with an optional unit
suffix), breaches a threshold. -/
def tempBreachClaim (vs : Vitals) : Bool :=
  match ((lookupV vs "temp").orElse (fun _ => lookupV vs "temperature")) with
  | some v =>
    match pyTempFloat v with
    | some q => PyFloat.blt 103 q || PyFloat.blt q 95
    | none => false
  | none => false

/-- The claim's vitals rule: any present, parseable vital breaches a
threshold. -/
def vitalsUrgentClaim : Option Vitals → Bool
  | some vs => bpBreachClaim vs || hrBreachClaim vs || tempBreachClaim vs
  | none => false

/-- The classifier exactly as claim C3 states it: first-match-wins over
emergency keywords, severe severity, urgent keywords, then any present,
parseable vital breaching a threshold, else routine. -/
def determine_case_priority_claim (d : StructuredPatientData) : String :=
  let cc := strLower d.chief_complaint
  let syms := d.symptoms.map strLower
  let sev := strLower (d.severity.getD "")
  if keywordHit EMERGENCY_KEYWORDS cc syms then "emergency"
  else if sev == "severe" then "urgent"
  else if keywordHit URGENT_KEYWORDS cc syms then "urgent"
  else if vitalsUrgentClaim d.vital_signs then "urgent"
  else "routine"

/-- The amended blood-pressure rule: the check runs only when one of the
two keys is present; the value compared is the abbreviated key's when
truthy, otherwise the full-name key's (defaulting to the empty string). -/
def bpBreachAmended (vs : Vitals) : Bool :=
  (hasKey vs "bp" || hasKey vs "blood_pressure")
    && ((bpParse (bpValue vs)).elim false
      (fun p => decide (p.1 > 180 ∨ p.1 < 90 ∨ p.2 > 120 ∨ p.2 < 60)))

/-- The amended heart-rate rule: the abbreviated key's value when truthy,
otherwise the full-name key's; a falsy value is skipped as if absent;
float values are truncated to integers. -/
def hrBreachAmended (vs : Vitals) : Bool :=
  match hrRaw vs with
  | some v =>
    v.truthy && ((pyIntOfScalar v).elim false (fun n => decide (n > 120 ∨ n < 50)))
  | none => false

/-- The amended temperature rule: the abbreviated key's value when
truthy, otherwise the full-name key's; a falsy value is skipped as if
absent. -/
def tempBreachAmended (vs : Vitals) : Bool :=
  match tempRaw vs with
  | some v =>
    v.truthy && ((pyTempFloat v).elim false
      (fun q => PyFloat.blt 103 q || PyFloat.blt q 95))
  | none => false

/-- The amended vitals rule: any vital that is present, truthy and
parseable breaches a threshold. -/
def vitalsUrgentAmended : Option Vitals → Bool
  | some vs => bpBreachAmended vs || hrBreachAmended vs || tempBreachAmended vs
  | none => false

/-- The classifier as claim C3 reads after amendment: identical keyword
and severity rules, with the vitals rule under Python truthiness. -/
def determine_case_priority_amended (d : StructuredPatientData) : String :=
  let cc := strLower d.chief_complaint
  let syms := d.symptoms.map strLower
  let sev := strLower (d.severity.getD "")
  if keywordHit EMERGENCY_KEYWORDS cc syms then "emergency"
  else if sev == "severe" then "urgent"
  else if keywordHit URGENT_KEYWORDS cc syms then "urgent"
  else if vitalsUrgentAmended d.vital_signs then "urgent"
  else "routine"

/-- A benign structured extraction: no keyword, no severity, no vitals. -/
def sampleSD : StructuredPatientData :=
  { patient_id := "P5", chief_complaint := "cough", symptoms := [],
    duration := none, severity := none, medical_history := [],
    medications := [], allergies := [], vital_signs := none }

/-- A clinical summary with no risk factors. -/
def sampleCS : ClinicalSummary :=
  { concise_summary := "mild cough", key_findings := [], risk_factors := [],
    suggested_focus_areas := [] }

/-- A knowledge result with high confidence. -/
def sampleKR : KnowledgeLLMResult :=
  { relevant_conditions := ["common cold"], clinical_guidelines := [],
    confidence_score := pfDec 9 1 }

/-- A report draft. -/
def sampleDR : SOAPDraft :=
  { subjective := "s", objective := "o", assessment := "a", plan := "p",
    confidence_level := "high", flags := [] }

/-- An environment in which every collaborator call succeeds. -/
def envOK : Env :=
  { extractResult := .ok sampleSD,
    historyResult := .ok [],
    summaryResult := .ok sampleCS,
    knowledgeResult := .ok sampleKR,
    searchResult := .ok [],
    reportResult := .ok sampleDR,
    storeResult := .ok "point-1" }

/-- C2: in a fully successful run the code's routing path is
`[intake, memory, knowledge, report, storage]` — the summary agent's
success branch never appends `summary`, although the repository's own
`test_routing_path_completeness` asserts that `summary` appears. -/
theorem c2_theorem :
    (process_patient_intake envOK "P5" "cough" none).routing_path
      = ["intake", "memory", "knowledge", "report", "storage"]
    ∧ "summary" ∉ (process_patient_intake envOK "P5" "cough" none).routing_path := by
  decide

/-- When every attempt fails with a retryable error, the retry loop from
attempt `a` with `rem` retries left performs exactly `rem + 1` further
invocations and ends with the outcome of the last one. -/
lemma retryLoop_all_error (retryable : E → Bool) (f : Nat → Except E A)
    (hf : ∀ n, ∃ e, f n = .error e ∧ retryable e = true) :
    ∀ (rem a : Nat), retryLoop retryable f a rem = (f (a + rem), a + rem + 1) := by
  intro rem
  induction rem with
  | zero =>
    intro a
    obtain ⟨e, he, hr⟩ := hf a
    rw [Nat.add_zero, he]
    unfold retryLoop
    rw [he]
    simp [hr]
  | succ r ih =>
    intro a
    obtain ⟨e, he, hr⟩ := hf a
    unfold retryLoop
    rw [he]
    simp only [hr, if_true]
    rw [ih (a + 1)]
    have h1 : a + 1 + r = a + (r + 1) := by omega
    rw [h1]

/-- C4: a function that fails every attempt with a retryable error, run
under the retry policy with `max_retries = N`, is invoked exactly `N + 1`
times, and the error finally raised is the very outcome of the last
invocation (same kind and message). -/
theorem c4_theorem (retryable : E → Bool) (N : Nat) (f : Nat → Except E A)
    (hf : ∀ n, ∃ e, f n = .error e ∧ retryable e = true) :
    retry_with_exponential_backoff retryable N f = (f N, N + 1) := by
  unfold retry_with_exponential_backoff
  rw [retryLoop_all_error retryable f hf N 0]
  simp

/-- C4 (witness): three invocations for `max_retries = 2`, re-raising the
constant error unchanged. -/
theorem c4_witness :
    retry_with_exponential_backoff (fun _ => true) 2
        (fun _ => (Except.error "boom" : Except String Nat))
      = (Except.error "boom", 3) :=
  c4_theorem (fun _ => true) 2 (fun _ => Except.error "boom")
    (fun _ => ⟨"boom", rfl, rfl⟩)

/-! ## Claims about the TTL cache -/

/-- A key that is in no pair of the list is never found. -/
lemma findEntry_eq_none_of_not_mem {es : List (String × CacheEntry α)}
    {k : String} (h : k ∉ es.map Prod.fst) : findEntry es k = none := by
  unfold findEntry
  rw [List.find?_eq_none.mpr]
  · rfl
  · intro p hp
    simp only [beq_iff_eq]
    intro hk
    exact h (List.mem_map.mpr ⟨p, hp, hk⟩)

/-- A found entry is stored in the list under its key. -/
lemma findEntry_some_mem {es : List (String × CacheEntry α)} {k : String}
    {e : CacheEntry α} (h : findEntry es k = some e) : (k, e) ∈ es := by
  unfold findEntry at h
  obtain ⟨p, hp, hpe⟩ := Option.map_eq_some'.mp h
  have hk : p.1 = k := by simpa using List.find?_some hp
  have hm : p ∈ es := List.mem_of_find?_eq_some hp
  have : p = (k, e) := by
    cases p
    simp_all
  rwa [this] at hm

/-- A found key is among the stored keys. -/
lemma findEntry_isSome_mem {es : List (String × CacheEntry α)} {k : String}
    (h : (findEntry es k).isSome = true) : k ∈ es.map Prod.fst := by
  obtain ⟨e, he⟩ := Option.isSome_iff_exists.mp h
  exact List.mem_map.mpr ⟨(k, e), findEntry_some_mem he, rfl⟩

/-- Erasing a key that is not stored leaves the list unchanged. -/
lemma eraseEntry_eq_self {es : List (String × CacheEntry α)} {k : String}
    (h : k ∉ es.map Prod.fst) : eraseEntry es k = es := by
  unfold eraseEntry
  rw [List.filter_eq_self.mpr]
  intro p hp
  simp only [bne_iff_ne, ne_eq]
  intro hk
  exact h (List.mem_map.mpr ⟨p, hp, hk⟩)

/-- C5: with the cache at capacity on unexpired entries, `set` with a new
key evicts exactly the least-recently-used entry — the head of the
ordered structure, every other entry surviving in order — while `set` on
a present key evicts no key; a successful `get` returns the stored value
and moves the key to the most-recently-used tail position. -/
theorem c5_theorem (c : TTLCache α) (k : String) (v : α) (ttl : Option PyFloat)
    (now : PyFloat)
    (hfull : c.entries.length = c.max_size)
    (hpos : 0 < c.max_size)
    (hfresh : ∀ p ∈ c.entries, PyFloat.blt p.2.expiry now = false) :
    (k ∉ c.entries.map Prod.fst →
      (c.set k v ttl now).entries
        = c.entries.tail ++ [(k, ⟨v, now.add (ttl.getD c.default_ttl)⟩)])
    ∧ (k ∈ c.entries.map Prod.fst →
      ∀ k' ∈ c.entries.map Prod.fst, k' ∈ (c.set k v ttl now).entries.map Prod.fst)
    ∧ (∀ e, findEntry c.entries k = some e →
      (c.get k now).1 = some e.value
      ∧ (c.get k now).2.entries = eraseEntry c.entries k ++ [(k, e)]) := by
  refine ⟨?_, ?_, ?_⟩
  · intro hk
    have hfind : findEntry c.entries k = none := findEntry_eq_none_of_not_mem hk
    have htail : k ∉ c.entries.tail.map Prod.fst := by
      intro hmem
      exact hk (List.Sublist.mem hmem ((List.tail_sublist c.entries).map Prod.fst))
    unfold TTLCache.set
    simp [hfind, hfull, eraseEntry_eq_self htail]
  · intro hk k' hk'
    have hfind : (findEntry c.entries k).isSome = true := by
      rcases List.mem_map.mp hk with ⟨p, hp, hpk⟩
      cases hfe : findEntry c.entries k with
      | some e => rfl
      | none =>
        exfalso
        unfold findEntry at hfe
        have h2 := List.find?_eq_none.mp (Option.map_eq_none'.mp hfe)
        exact (h2 p hp) (by simpa using hpk)
    unfold TTLCache.set
    simp only [hfind, Bool.not_true, Bool.and_false, Bool.false_eq_true,
      if_false]
    by_cases hkk : k' = k
    · subst hkk
      simp
    · simp only [List.map_append, List.mem_append]
      left
      unfold eraseEntry
      rcases List.mem_map.mp hk' with ⟨p, hp, hpk⟩
      refine List.mem_map.mpr ⟨p, List.mem_filter.mpr ⟨hp, ?_⟩, hpk⟩
      simp only [bne_iff_ne, ne_eq]
      rw [hpk]
      exact hkk
  · intro e he
    have hmem : (k, e) ∈ c.entries := findEntry_some_mem he
    have hblt : PyFloat.blt e.expiry now = false := hfresh (k, e) hmem
    unfold TTLCache.get
    rw [he]
    simp [hblt]

/-- A concrete two-entry cache at capacity. -/
def sampleCache : TTLCache Nat :=
  { max_size := 2, default_ttl := .fin 300 1,
    entries := [("a", ⟨1, .fin 100 1⟩), ("b", ⟨2, .fin 100 1⟩)] }

/-- C5 (witness): inserting a third distinct key into the full concrete
cache evicts exactly the least-recently-used entry `a`. -/
theorem c5_witness :
    (sampleCache.set "c" 3 none (.fin 50 1)).entries
      = sampleCache.entries.tail
        ++ [("c", ⟨3, PyFloat.add (.fin 50 1) ((none : Option PyFloat).getD sampleCache.default_ttl)⟩)] :=
  (c5_theorem sampleCache "c" 3 none (.fin 50 1) (by decide) (by decide)
    (by decide)).1 (by decide)

/-! ## Claim about the enhanced-analysis policy -/

/-- C6: the policy fires exactly when both the knowledge context and the
clinical summary are present and at least one trigger holds — confidence
below 0.5, more than three risk factors, or no similar cases together
with confidence below 0.7; with either prerequisite absent it is false. -/
theorem c6_theorem (st : GraphState) :
    should_use_enhanced_analysis st = true
      ↔ ∃ k s, st.knowledge_context = some k ∧ st.clinical_summary = some s
          ∧ (PyFloat.blt k.confidence_score (pfDec 5 1) = true
            ∨ 3 < s.risk_factors.length
            ∨ (k.similar_cases = [] ∧ PyFloat.blt k.confidence_score (pfDec 7 1) = true)) := by
  unfold should_use_enhanced_analysis
  cases hk : st.knowledge_context with
  | none => simp
  | some k =>
    cases hs : st.clinical_summary with
    | none => simp
    | some s =>
      dsimp only
      constructor
      · intro h
        refine ⟨k, s, rfl, rfl, ?_⟩
        by_cases h1 : PyFloat.blt k.confidence_score (pfDec 5 1) = true
        · exact Or.inl h1
        by_cases h2 : s.risk_factors.length > 3
        · exact Or.inr (Or.inl h2)
        refine Or.inr (Or.inr ?_)
        rw [if_neg h1, if_neg h2] at h
        have h3 : (k.similar_cases.isEmpty
            && PyFloat.blt k.confidence_score (pfDec 7 1)) = true := by
          by_contra h3
          rw [if_neg h3] at h
          exact Bool.false_ne_true h
        have h4 : k.similar_cases.isEmpty = true
            ∧ PyFloat.blt k.confidence_score (pfDec 7 1) = true := by
          simpa using h3
        exact ⟨List.isEmpty_iff.mp h4.1, h4.2⟩
      · rintro ⟨k', s', hk', hs', htrig⟩
        injection hk' with hk2
        injection hs' with hs2
        subst hk2
        subst hs2
        rcases htrig with h1 | h2 | ⟨h3, h4⟩
        · rw [if_pos h1]
        · by_cases h1 : PyFloat.blt k.confidence_score (pfDec 5 1) = true
          · rw [if_pos h1]
          · rw [if_neg h1, if_pos h2]
        · by_cases h1 : PyFloat.blt k.confidence_score (pfDec 5 1) = true
          · rw [if_pos h1]
          by_cases h2 : s.risk_factors.length > 3
          · rw [if_neg h1, if_pos h2]
          rw [if_neg h1, if_neg h2, if_pos]
          exact (by simpa using And.intro (List.isEmpty_iff.mpr h3) h4)

/-! ## Claim about cached `None` results -/

/-- Looking up a key in the list with the entry appended behind entries
that do not hold the key finds the appended entry. -/
lemma findEntry_append_singleton (es : List (String × CacheEntry α))
    (k : String) (e : CacheEntry α) :
    findEntry (eraseEntry es k ++ [(k, e)]) k = some e := by
  unfold findEntry
  rw [List.find?_append]
  have h1 : (eraseEntry es k).find? (fun p => p.1 == k) = none := by
    rw [List.find?_eq_none]
    intro p hp
    have := (List.mem_filter.mp hp).2
    simpa using this
  rw [h1]
  simp

/-- C10: `get` returns the Python value `None` after a `set` that stored
`None` (exactly as it does on a miss, so a stored `None` cannot be
distinguished from one); consequently a `cached`-wrapped call whose
result is `None` always re-invokes the wrapped function — including the
call made immediately after one that stored `None` for the same key. -/
theorem c10_theorem (c : TTLCache (Option β)) (k : String)
    (ttl : Option PyFloat) (now now2 : PyFloat)
    (keyOf : Arg → String) (f : Arg → Option β) (a : Arg) :
    ((c.set k none ttl now).get k now2).1.join = none
    ∧ ((cachedCall c ttl keyOf f a now).result = none →
        (cachedCall c ttl keyOf f a now).invoked = true)
    ∧ ((cachedCall c ttl keyOf f a now).result = none →
        (cachedCall (cachedCall c ttl keyOf f a now).cache ttl keyOf f a now2).invoked
          = true) := by
  have hstored : ∀ (c' : TTLCache (Option β)) (kk : String)
      (ttl' : Option PyFloat) (nw nw2 : PyFloat),
      (((c'.set kk none ttl' nw).get kk nw2).1 = none
        ∨ ((c'.set kk none ttl' nw).get kk nw2).1 = some none) := by
    intro c' kk ttl' nw nw2
    unfold TTLCache.set TTLCache.get
    rw [findEntry_append_singleton]
    by_cases hexp : PyFloat.blt (⟨none, nw.add (ttl'.getD c'.default_ttl)⟩ : CacheEntry (Option β)).expiry nw2 = true
    · left
      simp [hexp]
    · right
      simp only [Bool.not_eq_true] at hexp
      simp [hexp]
  refine ⟨?_, ?_, ?_⟩
  · rcases hstored c k ttl now now2 with h | h <;> simp [h]
  · intro hres
    unfold cachedCall at *
    rcases hg : (c.get (keyOf a) now).1 with _ | v
    · simp [hg]
    · rcases v with _ | v'
      · simp [hg]
      · simp [hg] at hres
  · intro hres
    unfold cachedCall at *
    rcases hg : (c.get (keyOf a) now).1 with _ | v
    · simp only [hg] at hres ⊢
      have hfa : f a = none := hres
      rcases hstored (c.get (keyOf a) now).2 (keyOf a) ttl now now2 with h | h
      · simp [hfa, h]
      · simp [hfa, h]
    · rcases v with _ | v'
      · simp only [hg] at hres ⊢
        have hfa : f a = none := hres
        rcases hstored (c.get (keyOf a) now).2 (keyOf a) ttl now now2 with h | h
        · simp [hfa, h]
        · simp [hfa, h]
      · simp [hg] at hres

/-- C10 (witness): with an empty cache and a function returning `None`,
the first call computes, and the immediately following call computes
again even though the first stored the result. -/
theorem c10_witness :
    ((cachedCall (⟨10, .fin 300 1, []⟩ : TTLCache (Option Nat)) none
        (fun _ : Unit => "k") (fun _ => none) () (.fin 0 1)).invoked = true)
    ∧ ((cachedCall (cachedCall (⟨10, .fin 300 1, []⟩ : TTLCache (Option Nat)) none
        (fun _ : Unit => "k") (fun _ => none) () (.fin 0 1)).cache none
        (fun _ : Unit => "k") (fun _ => none) () (.fin 1 1)).invoked = true) :=
  ⟨(c10_theorem (⟨10, .fin 300 1, []⟩ : TTLCache (Option Nat)) "k" none (.fin 0 1) (.fin 1 1)
      (fun _ : Unit => "k") (fun _ => none) ()).2.1 (by decide),
   (c10_theorem (⟨10, .fin 300 1, []⟩ : TTLCache (Option Nat)) "k" none (.fin 0 1) (.fin 1 1)
      (fun _ : Unit => "k") (fun _ => none) ()).2.2 (by decide)⟩

/-! ## Claims about the case classifier -/

/-- The vitals section flag equals the disjunction of its three branch
checks (the `urgent` early returns commute, and an empty mapping fails
every branch). -/
lemma vitalsUrgent_some_eq (vs : Vitals) :
    vitalsUrgent (some vs) = (bpCheck vs || hrCheck vs || tempCheck vs) := by
  cases hE : vs.isEmpty with
  | true =>
    have : vs = [] := List.isEmpty_iff.mp hE
    subst this
    rfl
  | false =>
    simp only [vitalsUrgent]
    rw [hE]
    cases h1 : bpCheck vs <;> cases h2 : hrCheck vs <;> cases h3 : tempCheck vs
      <;> simp [h1, h2, h3]

/-- The source's blood-pressure branch agrees with the amended rule. -/
lemma bpCheck_eq_amended (vs : Vitals) : bpCheck vs = bpBreachAmended vs := by
  unfold bpCheck bpBreachAmended
  cases h : (hasKey vs "bp" || hasKey vs "blood_pressure") with
  | false => simp [h]
  | true =>
    simp only [h, if_true, Bool.true_and]
    cases hp : bpParse (bpValue vs) with
    | none => rfl
    | some p =>
      cases p
      rfl

/-- The source's heart-rate branch agrees with the amended rule. -/
lemma hrCheck_eq_amended (vs : Vitals) : hrCheck vs = hrBreachAmended vs := by
  unfold hrCheck hrBreachAmended
  cases hrRaw vs with
  | none => rfl
  | some v =>
    cases h1 : v.truthy <;> cases h2 : pyIntOfScalar v <;> simp [h1, h2]

/-- The source's temperature branch agrees with the amended rule. -/
lemma tempCheck_eq_amended (vs : Vitals) : tempCheck vs = tempBreachAmended vs := by
  unfold tempCheck tempBreachAmended
  cases tempRaw vs with
  | none => rfl
  | some v =>
    cases h1 : v.truthy <;> cases h2 : pyTempFloat v <;> simp [h1, h2]

/-- The source's vitals section agrees with the amended vitals rule. -/
lemma vitalsUrgent_eq_amended (o : Option Vitals) :
    vitalsUrgent o = vitalsUrgentAmended o := by
  cases o with
  | none => rfl
  | some vs =>
    rw [vitalsUrgent_some_eq]
    unfold vitalsUrgentAmended
    rw [bpCheck_eq_amended, hrCheck_eq_amended, tempCheck_eq_amended]

/-- C3 (counterexample): a structured record whose only vital is the
integer heart rate `0` — present, parseable, and far below the 50
threshold — which the claimed procedure classifies `urgent` but the code
classifies `routine` (Python `if hr:` skips the falsy zero). -/
def c3Input : StructuredPatientData :=
  { patient_id := "P9", chief_complaint := "routine checkup", symptoms := [],
    duration := none, severity := none, medical_history := [],
    medications := [], allergies := [],
    vital_signs := some [("hr", .i 0)] }

/-- C3 (counterexample): the code disagrees with the claimed procedure on
`c3Input`. -/
theorem c3_counterexample :
    determine_case_priority c3Input = "routine"
    ∧ determine_case_priority_claim c3Input = "urgent"
    ∧ determine_case_priority c3Input ≠ determine_case_priority_claim c3Input := by
  decide

/-- C3 (amended): the classifier is the claimed first-match-wins
procedure with the vitals step under Python truthiness — a vital whose
looked-up value is falsy (numeric zero or empty string) is skipped as if
absent, the abbreviated key's value is preferred only when truthy, the
blood-pressure check runs only when one of its keys is present, and
heart-rate floats are truncated to integers before comparison. -/
theorem c3_amended (d : StructuredPatientData) :
    determine_case_priority d = determine_case_priority_amended d := by
  simp only [determine_case_priority, determine_case_priority_amended]
  rw [vitalsUrgent_eq_amended]

/-! ## Claim C9: malformed vitals never raise and are skipped -/

/-- Drop every vital stored under one of the listed keys. -/
def eraseKeys (ks : List String) (vs : Vitals) : Vitals :=
  vs.filter (fun p => !(ks.contains p.1))

/-- Erasing unrelated keys does not change a key's lookup. -/
lemma find?_eraseKeys_not_mem {k : String} {ks : List String} (h : k ∉ ks)
    (vs : Vitals) :
    (eraseKeys ks vs).find? (fun p => p.1 == k) = vs.find? (fun p => p.1 == k) := by
  induction vs with
  | nil => rfl
  | cons p t ih =>
    unfold eraseKeys at *
    rw [List.filter_cons]
    by_cases hc : p.1 ∈ ks
    · have hcc : (!ks.contains p.1) = false := by simpa using hc
      have hpk : (p.1 == k) = false :=
        beq_eq_false_iff_ne.mpr (fun he => h (he ▸ hc))
      rw [hcc, if_neg (by simp)]
      rw [ih]
      simp only [List.find?_cons, hpk]
    · have hcc : (!ks.contains p.1) = true := by simpa using hc
      rw [hcc, if_pos rfl]
      cases hpk : (p.1 == k) with
      | true => simp only [List.find?_cons, hpk]
      | false =>
        simp only [List.find?_cons, hpk]
        exact ih

/-- An erased key is no longer found. -/
lemma find?_eraseKeys_mem {k : String} {ks : List String} (h : k ∈ ks)
    (vs : Vitals) :
    (eraseKeys ks vs).find? (fun p => p.1 == k) = none := by
  rw [List.find?_eq_none]
  intro p hp hbeq
  have h2 : (ks.contains p.1) = false := by
    simpa using (List.mem_filter.mp hp).2
  have hpk : p.1 = k := by simpa using hbeq
  rw [hpk] at h2
  have : k ∉ ks := by simpa using h2
  exact this h

/-- The blood-pressure branch ignores keys other than its own. -/
lemma bpCheck_eraseKeys {ks : List String} (h1 : "bp" ∉ ks)
    (h2 : "blood_pressure" ∉ ks) (vs : Vitals) :
    bpCheck (eraseKeys ks vs) = bpCheck vs := by
  unfold bpCheck bpValue hasKey lookupV
  rw [find?_eraseKeys_not_mem h1, find?_eraseKeys_not_mem h2]

/-- The heart-rate branch ignores keys other than its own. -/
lemma hrCheck_eraseKeys {ks : List String} (h1 : "hr" ∉ ks)
    (h2 : "heart_rate" ∉ ks) (vs : Vitals) :
    hrCheck (eraseKeys ks vs) = hrCheck vs := by
  unfold hrCheck hrRaw lookupV
  rw [find?_eraseKeys_not_mem h1, find?_eraseKeys_not_mem h2]

/-- The temperature branch ignores keys other than its own. -/
lemma tempCheck_eraseKeys {ks : List String} (h1 : "temp" ∉ ks)
    (h2 : "temperature" ∉ ks) (vs : Vitals) :
    tempCheck (eraseKeys ks vs) = tempCheck vs := by
  unfold tempCheck tempRaw lookupV
  rw [find?_eraseKeys_not_mem h1, find?_eraseKeys_not_mem h2]

/-- With both of its keys erased, the blood-pressure branch is silent. -/
lemma bpCheck_erased (vs : Vitals) :
    bpCheck (eraseKeys ["bp", "blood_pressure"] vs) = false := by
  unfold bpCheck hasKey
  rw [find?_eraseKeys_mem (by decide), find?_eraseKeys_mem (by decide)]
  rfl

/-- With both of its keys erased, the heart-rate branch is silent. -/
lemma hrCheck_erased (vs : Vitals) :
    hrCheck (eraseKeys ["hr", "heart_rate"] vs) = false := by
  unfold hrCheck hrRaw truthyOrElse lookupV
  rw [find?_eraseKeys_mem (by decide), find?_eraseKeys_mem (by decide)]
  rfl

/-- With both of its keys erased, the temperature branch is silent. -/
lemma tempCheck_erased (vs : Vitals) :
    tempCheck (eraseKeys ["temp", "temperature"] vs) = false := by
  unfold tempCheck tempRaw truthyOrElse lookupV
  rw [find?_eraseKeys_mem (by decide), find?_eraseKeys_mem (by decide)]
  rfl

/-- An unparseable blood-pressure value never fires the branch. -/
lemma bpCheck_of_unparseable {vs : Vitals} (h : bpParse (bpValue vs) = none) :
    bpCheck vs = false := by
  unfold bpCheck
  rw [h]
  split <;> rfl

/-- An unparseable heart-rate value never fires the branch. -/
lemma hrCheck_of_unparseable {vs : Vitals} {v : PyScalar}
    (h1 : hrRaw vs = some v) (h2 : pyIntOfScalar v = none) :
    hrCheck vs = false := by
  unfold hrCheck
  rw [h1]
  cases v.truthy <;> simp [h2]

/-- An unparseable temperature value never fires the branch. -/
lemma tempCheck_of_unparseable {vs : Vitals} {v : PyScalar}
    (h1 : tempRaw vs = some v) (h2 : pyTempFloat v = none) :
    tempCheck vs = false := by
  unfold tempCheck
  rw [h1]
  cases v.truthy <;> simp [h2]

/-- The classifier result depends on the vitals only through the vitals
flag. -/
lemma priority_vitals_congr (d : StructuredPatientData) (o : Option Vitals)
    (h : vitalsUrgent d.vital_signs = vitalsUrgent o) :
    determine_case_priority d = determine_case_priority { d with vital_signs := o } := by
  simp only [determine_case_priority]
  rw [h]

/-- The non-raising classifier always returns one of the three labels. -/
lemma priority_mem_three (d : StructuredPatientData) :
    determine_case_priority d = "emergency"
    ∨ determine_case_priority d = "urgent"
    ∨ determine_case_priority d = "routine" := by
  simp only [determine_case_priority]
  by_cases h1 : keywordHit EMERGENCY_KEYWORDS (strLower d.chief_complaint)
      (d.symptoms.map strLower) = true
  · left
    simp [h1]
  by_cases h2 : (strLower (d.severity.getD "") == "severe") = true
  · right; left
    simp [h1, h2]
  by_cases h3 : keywordHit URGENT_KEYWORDS (strLower d.chief_complaint)
      (d.symptoms.map strLower) = true
  · right; left
    simp [h1, h2, h3]
  by_cases h4 : vitalsUrgent d.vital_signs = true
  · right; left
    simp [h1, h2, h3, h4]
  · right; right
    simp [h1, h2, h3, h4]

/-- A vitals mapping with a float-infinity heart rate: truthy, so the
source reaches `int(hr)`, which raises `OverflowError` — not caught by
`except (ValueError, TypeError)`. -/
def c9InfVitals : Vitals := [("hr", PyScalar.f (PyFloat.inf false))]

/-- A structured record whose only vital is the infinite heart rate. -/
def c9InfInput : StructuredPatientData :=
  { patient_id := "P9", chief_complaint := "routine checkup", symptoms := [],
    duration := none, severity := none, medical_history := [],
    medications := [], allergies := [], vital_signs := some c9InfVitals }

/-- C9 (counterexample): on the record whose heart rate is `float('inf')`
the classifier raises (`int(float('inf'))` raises `OverflowError`, which
routing.py line 95's `except (ValueError, TypeError)` does not catch)
instead of skipping the vital; skipping it, as the claim requires, would
classify the record `routine`. -/
theorem c9_counterexample :
    determine_case_priority_exc c9InfInput = .error overflowMsg
    ∧ determine_case_priority_exc
        { c9InfInput with
          vital_signs := some (eraseKeys ["hr", "heart_rate"] c9InfVitals) }
      = .ok "routine" :=
  ⟨rfl, rfl⟩

/-- C9 (amended): the classifier terminates normally on every input
except one family — after the keyword and severity rules have not fired
and the blood-pressure branch has not returned, a heart-rate lookup
yielding a float infinity (truthy, and `int()` then raises
`OverflowError`, which the branch's `except (ValueError, TypeError)` does
not catch) makes it raise; on every non-raising input it returns one of
the three labels and each unparseable vital (bad blood-pressure string,
non-numeric heart rate or temperature, `nan` heart rate) is skipped
exactly as if its keys were absent, the classification proceeding on the
remaining rules. -/
theorem c9_amended (d : StructuredPatientData) :
    (vitalsRaises d.vital_signs = false →
      determine_case_priority_exc d = .ok (determine_case_priority d))
    ∧ (determine_case_priority d = "emergency"
      ∨ determine_case_priority d = "urgent"
      ∨ determine_case_priority d = "routine")
    ∧ (keywordHit EMERGENCY_KEYWORDS (strLower d.chief_complaint)
          (d.symptoms.map strLower) = false →
        (strLower (d.severity.getD "") == "severe") = false →
        keywordHit URGENT_KEYWORDS (strLower d.chief_complaint)
          (d.symptoms.map strLower) = false →
        vitalsRaises d.vital_signs = true →
        determine_case_priority_exc d = .error overflowMsg)
    ∧ (∀ vs, d.vital_signs = some vs →
        ((bpParse (bpValue vs) = none →
          determine_case_priority d
            = determine_case_priority
                { d with vital_signs := some (eraseKeys ["bp", "blood_pressure"] vs) })
        ∧ (∀ v, hrRaw vs = some v → pyIntOfScalar v = none →
          determine_case_priority d
            = determine_case_priority
                { d with vital_signs := some (eraseKeys ["hr", "heart_rate"] vs) })
        ∧ (∀ v, tempRaw vs = some v → pyTempFloat v = none →
          determine_case_priority d
            = determine_case_priority
                { d with vital_signs := some (eraseKeys ["temp", "temperature"] vs) }))) := by
  refine ⟨?_, priority_mem_three d, ?_, ?_⟩
  · intro h
    simp only [determine_case_priority_exc, determine_case_priority, h]
    split_ifs <;> simp_all
  · intro h1 h2 h3 h4
    simp only [determine_case_priority_exc]
    simp [h1, h2, h3, h4]
  · intro vs hv
    refine ⟨?_, ?_, ?_⟩
    · intro hbp
      refine priority_vitals_congr d _ ?_
      rw [hv, vitalsUrgent_some_eq, vitalsUrgent_some_eq]
      rw [bpCheck_erased, hrCheck_eraseKeys (by decide) (by decide),
        tempCheck_eraseKeys (by decide) (by decide),
        bpCheck_of_unparseable hbp]
    · intro v h1 h2
      refine priority_vitals_congr d _ ?_
      rw [hv, vitalsUrgent_some_eq, vitalsUrgent_some_eq]
      rw [hrCheck_erased, bpCheck_eraseKeys (by decide) (by decide),
        tempCheck_eraseKeys (by decide) (by decide),
        hrCheck_of_unparseable h1 h2]
    · intro v h1 h2
      refine priority_vitals_congr d _ ?_
      rw [hv, vitalsUrgent_some_eq, vitalsUrgent_some_eq]
      rw [tempCheck_erased, bpCheck_eraseKeys (by decide) (by decide),
        hrCheck_eraseKeys (by decide) (by decide),
        tempCheck_of_unparseable h1 h2]

/-- A vitals mapping in which every value is malformed but none raises. -/
def c9Vitals : Vitals :=
  [("bp", .s "not recorded"), ("hr", .s "abc"), ("temp", .s "hot")]

/-- A structured record carrying only malformed, non-raising vitals. -/
def c9Input : StructuredPatientData :=
  { patient_id := "P9", chief_complaint := "routine checkup", symptoms := [],
    duration := none, severity := none, medical_history := [],
    medications := [], allergies := [], vital_signs := some c9Vitals }

/-- C9 (witness): the amended statement at concrete records — the
non-raising malformed record terminates normally with its malformed heart
rate skipped, and the infinite-heart-rate record raises. -/
theorem c9_witness :
    determine_case_priority_exc c9Input
      = Except.ok (determine_case_priority c9Input)
    ∧ determine_case_priority_exc c9InfInput = Except.error overflowMsg
    ∧ determine_case_priority c9Input
      = determine_case_priority
          { c9Input with vital_signs := some (eraseKeys ["hr", "heart_rate"] c9Vitals) } :=
  ⟨(c9_amended c9Input).1 (by decide),
   (c9_amended c9InfInput).2.2.1 (by decide) (by decide) (by decide) (by decide),
   (((c9_amended c9Input).2.2.2) c9Vitals rfl).2.1 (PyScalar.s "abc")
     (by decide) (by decide)⟩

end Medsynapse
